import Mathlib

/-!
Shallow embedding of the monit_exporter repository (Go): the monitor/messaging
fetchers, the XML and JSON status decoders, the scrape operation and the
Prometheus collector adapter, together with proofs of the specification claims.

Gauge values in the source are float64, but every value the program ever sets
is the exact cast of a machine integer (a status code, an uptime, a count,
or the literals 0 and 1), so gauges are modelled with `Int` values.
-/

namespace MonitExporter

/-! ## Data model (from part_000 and ejabberd_user.go) -/

/-- Simplified structure of a monit check (source: `monitService`,
part_000 lines 43-48). The Go field `Type` is `Type'` here because `Type`
is reserved in Lean. -/
structure monitService where
  Type' : Int
  Name : String
  Status : Int
  Monitored : String
deriving DecidableEq, Repr

/-- Source: `monitXML` (part_000 lines 38-40): the decoded monitor payload,
the list of `service` child elements of the root. -/
structure monitXML where
  MonitServices : List monitService
deriving DecidableEq, Repr

/-- One item of the list returned by the messaging backend
(source: `EjabberdConnectedUserInfo`, ejabberd_user.go). -/
structure EjabberdConnectedUserInfo where
  Jid : String
  Connection : String
  Ip : String
  Port : Int
  Priority : Int
  Node : String
  Uptime : Int
deriving DecidableEq, Repr

/-- Source: the `serviceTypes` Go map (part_000 lines 26-36). Indexing a Go
map at a missing key yields the zero value, here the empty string, which the
`getD ""` mirrors. -/
def serviceTypes (t : Int) : String :=
  if t = 0 then "filesystem"
  else if t = 1 then "directory"
  else if t = 2 then "file"
  else if t = 3 then "program with pidfile"
  else if t = 4 then "remote host"
  else if t = 5 then "system"
  else if t = 6 then "fifo"
  else if t = 7 then "program with path"
  else if t = 8 then "network"
  else ""

/-! ## Gauge model

A `prometheus.GaugeVec` is a mutable map from a label tuple to a float value:
`With(labels).Set(v)` inserts or overwrites, `Reset()` empties the map, and
collection emits one sample per stored label tuple. It is modelled as an
association list with at most one entry per key. -/

/-- Label tuple of the `monit_exporter_service_check` gauge vector:
(check_name, type, monitored), in the order of part_000 line 156. -/
abbrev CheckLabels := String × String × String

/-- `With(labels).Set(v)` on a gauge vector: overwrite the entry with key
`k` if present, otherwise append it. -/
def gaugeSet {κ : Type} [DecidableEq κ] (k : κ) (v : Int)
    (m : List (κ × Int)) : List (κ × Int) :=
  if m.any (fun p => p.1 = k) then
    m.map (fun p => if p.1 = k then (k, v) else p)
  else
    m ++ [(k, v)]

/-- The current value stored for a label tuple, if any. -/
def gaugeGet {κ : Type} [DecidableEq κ] (k : κ) (m : List (κ × Int)) :
    Option Int :=
  (m.find? (fun p => p.1 = k)).map (fun p => p.2)

/-- Mutable metric state of the `Exporter` (part_000 lines 52-61): the
availability gauge, the per-check gauge vector, the per-session uptime gauge
vector and the total session count gauge. -/
structure ExporterState where
  up : Int
  checkStatus : List (CheckLabels × Int)
  connectedUsersUptime : List (String × Int)
  connectedUsersCount : Int
deriving DecidableEq, Repr

/-- The freshly constructed exporter (NewExporter): all gauges at their zero
values, no label tuples stored. -/
def initialExporterState : ExporterState :=
  { up := 0, checkStatus := [], connectedUsersUptime := [],
    connectedUsersCount := 0 }

/-! ## Fetchers

The two fetchers perform blocking HTTP I/O; each run of a fetcher is
determined by the outcome of its environment: request construction can fail
(malformed URL), the round-trip can fail (network), the body read can fail,
or a body is produced. The fetcher code maps that outcome to what the caller
(and the process) observes. -/

/-- Outcome of the environment for one monitor HTTP fetch. -/
inductive FetchOutcome where
  | reqErr
  | doErr
  | readErr
  | body (data : String)
deriving DecidableEq, Repr

/-- What a call to a fetcher does to its caller and to the process:
return a value, return an error, terminate the process (`log.Fatal`),
or panic. -/
inductive FetchResult (α : Type) where
  | ok (a : α)
  | err
  | fatalExit
  | panicked
deriving DecidableEq, Repr

/-- Source: `FetchMonitStatus` (part_000 lines 73-98).
If `http.NewRequest` fails the code logs the error but does not return, and
the following `req.SetBasicAuth` dereferences the nil request: a panic.
If `client.Do` fails the error is returned. If reading the body fails the
code calls `log.Fatal`, which terminates the process; the `return nil, err`
after it is unreachable. Otherwise the body bytes are returned. -/
def FetchMonitStatus : FetchOutcome → FetchResult String
  | .reqErr => .panicked
  | .doErr => .err
  | .readErr => .fatalExit
  | .body data => .ok data

/-! ## Status decoder (monitor): `ParseMonitStatus`

`ParseMonitStatus` (part_000 lines 100-109) runs `encoding/xml`'s decoder on
the body and fills a `monitXML`. The decoder below models the library on
well-formed documents of the shapes the exporter consumes: an XML element
tree is parsed, then the `monitXML` / `monitService` field mappings of the
source structs are applied, exactly as `encoding/xml` applies the
`xml:"..."` tags (a slice field collects every matching child; a scalar
field is overwritten by each matching occurrence in document order; an
integer field parses the character data and fails on non-numeric text;
a missing field keeps its zero value). Malformed input is an error. -/

/-- An XML node: an element with attributes and children, or character
data. -/
inductive Xml where
  | elem (name : String) (attrs : List (String × String)) (children : List Xml)
  | text (s : String)

/-- XML whitespace. -/
def isXmlWs (c : Char) : Bool :=
  c = ' ' || c = '\n' || c = '\t' || c = '\r'

/-- Drop leading whitespace. -/
def skipWs : List Char → List Char
  | [] => []
  | c :: cs => if isXmlWs c then skipWs cs else c :: cs

/-- A character allowed in an element or attribute name. -/
def isNameChar (c : Char) : Bool :=
  c.isAlphanum || c = '_' || c = '-' || c = ':' || c = '.'

/-- Read a (possibly empty) run of name characters. -/
def takeName : List Char → String × List Char
  | [] => ("", [])
  | c :: cs =>
    if isNameChar c then
      let (n, rest) := takeName cs
      (String.mk (c :: n.data), rest)
    else
      ("", c :: cs)

/-- Read characters up to (not including) the quote character `q`. -/
def takeUntilQuote (q : Char) : List Char → Option (String × List Char)
  | [] => none
  | c :: cs =>
    if c = q then some ("", cs)
    else
      match takeUntilQuote q cs with
      | some (s, rest) => some (String.mk (c :: s.data), rest)
      | none => none

/-- Parse the attribute list of a start tag, stopping in front of `>` or
`/>`. -/
def parseAttrs : Nat → List Char → Option (List (String × String) × List Char)
  | 0, _ => none
  | fuel + 1, cs =>
    let cs := skipWs cs
    match cs with
    | [] => none
    | c :: rest =>
      if c = '>' || c = '/' then some ([], c :: rest)
      else
        let (n, afterName) := takeName (c :: rest)
        if n = "" then none
        else
          match skipWs afterName with
          | '=' :: afterEq =>
            match skipWs afterEq with
            | q :: afterQ =>
              if q = '"' || q = '\x27' then
                match takeUntilQuote q afterQ with
                | some (v, afterVal) =>
                  match parseAttrs fuel afterVal with
                  | some (attrs, rest2) => some ((n, v) :: attrs, rest2)
                  | none => none
                | none => none
              else none
            | [] => none
          | _ => none

/-- Read character data up to the next `<`. -/
def takeText : List Char → String × List Char
  | [] => ("", [])
  | c :: cs =>
    if c = '<' then ("", c :: cs)
    else
      let (s, rest) := takeText cs
      (String.mk (c :: s.data), rest)

mutual

/-- Parse one element `<name attrs> children </name>` (or self-closing
`<name attrs/>`). -/
def parseElement : Nat → List Char → Option (Xml × List Char)
  | 0, _ => none
  | fuel + 1, cs =>
    match cs with
    | '<' :: rest =>
      let (n, afterName) := takeName rest
      if n = "" then none
      else
        match parseAttrs fuel afterName with
        | some (attrs, afterAttrs) =>
          match afterAttrs with
          | '/' :: '>' :: rest2 => some (.elem n attrs [], rest2)
          | '>' :: rest2 =>
            match parseChildren fuel rest2 with
            | some (children, afterChildren) =>
              match afterChildren with
              | '<' :: '/' :: rest3 =>
                let (n2, afterClose) := takeName rest3
                if n2 = n then
                  match skipWs afterClose with
                  | '>' :: rest4 => some (.elem n attrs children, rest4)
                  | _ => none
                else none
              | _ => none
            | none => none
          | _ => none
        | none => none
    | _ => none

/-- Parse a sequence of child nodes, stopping in front of a closing tag
`</` or at the end of input. -/
def parseChildren : Nat → List Char → Option (List Xml × List Char)
  | 0, _ => none
  | fuel + 1, cs =>
    match cs with
    | [] => some ([], [])
    | '<' :: '/' :: rest => some ([], '<' :: '/' :: rest)
    | '<' :: rest =>
      match parseElement fuel ('<' :: rest) with
      | some (x, afterElem) =>
        match parseChildren fuel afterElem with
        | some (xs, rest2) => some (x :: xs, rest2)
        | none => none
      | none => none
    | c :: rest =>
      let (s, afterText) := takeText (c :: rest)
      match parseChildren fuel afterText with
      | some (xs, rest2) => some (.text s :: xs, rest2)
      | none => none

end

/-- Parse a whole document into its root element. -/
def parseXmlDoc (data : String) : Option Xml :=
  match parseElement (data.length + 1) (skipWs data.data) with
  | some (x, _) => some x
  | none => none

/-- Integer syntax accepted by the Go xml decoder for an `int` field
(`strconv.ParseInt` base 10): an optional sign followed by at least one
digit. -/
def parseGoInt (s : String) : Option Int :=
  let digits (l : List Char) : Option Nat :=
    if l = [] || l.any (fun c => !c.isDigit) then none
    else some (l.foldl (fun acc c => acc * 10 + (c.toNat - 48)) 0)
  match s.data with
  | '-' :: rest => (digits rest).map (fun n => -(n : Int))
  | '+' :: rest => (digits rest).map (fun n => (n : Int))
  | l => (digits l).map (fun n => (n : Int))

/-- Concatenated character data of a node list (the chardata the xml decoder
assigns to a scalar string field). -/
def textOf (children : List Xml) : String :=
  children.foldl
    (fun acc c => match c with | .text s => acc ++ s | .elem _ _ _ => acc) ""

/-- Decode one `<service>` element into a `monitService` following the
struct tags of part_000 lines 43-48: `type` is an integer attribute,
`name`/`monitor` are string children, `status` an integer child; each
occurrence overwrites in document order, absent fields keep zero values. -/
def decodeService : Xml → Option monitService
  | .text _ => none
  | .elem _ attrs children => do
    let t ← match attrs.find? (fun p => p.1 = "type") with
      | some p => parseGoInt p.2
      | none => pure 0
    children.foldlM
      (fun (acc : monitService) c =>
        match c with
        | .elem "name" _ cc => pure { acc with Name := textOf cc }
        | .elem "status" _ cc => do
          let v ← parseGoInt (textOf cc)
          pure { acc with Status := v }
        | .elem "monitor" _ cc => pure { acc with Monitored := textOf cc }
        | _ => pure acc)
      { Type' := t, Name := "", Status := 0, Monitored := "" }

/-- Decode the root element into a `monitXML`: the `MonitServices` slice
collects every direct child element named `service`
(part_000 lines 38-40). -/
def decodeMonitXML : Xml → Option monitXML
  | .text _ => none
  | .elem _ _ children => do
    let services ← (children.filter
        (fun c => match c with | .elem "service" _ _ => true | _ => false)).mapM
      decodeService
    pure { MonitServices := services }

/-- Source: `ParseMonitStatus` (part_000 lines 100-109): decode the fetched
bytes as XML into a `monitXML`, or fail. -/
def ParseMonitStatus (data : String) : Option monitXML :=
  (parseXmlDoc data).bind decodeMonitXML

/-! ## Status decoder (messaging) and `FetchAndParseEjabberdStatus` -/

/-- Classification of a messaging response body by how `encoding/json`'s
`Unmarshal` treats it when the target is a `[]EjabberdConnectedUserInfo`:
an empty body, a JSON `null`, a well-formed array of session objects, or
malformed JSON (which leaves whatever prefix of the array was decoded in
the target). -/
inductive JsonBody where
  | empty
  | null
  | array (sessions : List EjabberdConnectedUserInfo)
  | malformed (partialSessions : List EjabberdConnectedUserInfo)
deriving DecidableEq, Repr

/-- Model of `json.Unmarshal(data, &ejabberd)` on a nil
`[]EjabberdConnectedUserInfo` target: the slice left in the target and the
returned error flag. An empty body is a syntax error (unexpected end of
input) leaving the slice nil; `null` leaves the slice nil with no error;
a well-formed array yields its elements; malformed input yields an error
together with the partially decoded prefix. -/
def jsonUnmarshalSessions (body : JsonBody) :
    List EjabberdConnectedUserInfo × Bool :=
  match body with
  | .empty => ([], true)
  | .null => ([], false)
  | .array sessions => (sessions, false)
  | .malformed partialSessions => (partialSessions, true)

/-- Outcome of the environment for one messaging HTTP fetch. -/
inductive EjabberdFetchOutcome where
  | reqErr
  | doErr
  | readErr
  | body (b : JsonBody)
deriving DecidableEq, Repr

/-- Source: `FetchAndParseEjabberdStatus` (ejabberd_user.go lines 69-90).
Request-construction and round-trip errors are returned; a body-read error
calls `log.Fatal`, terminating the process (the `return` after it is
unreachable). Otherwise `json.Unmarshal` is run and its error is discarded:
the function returns whatever list was populated, with a nil error. -/
def FetchAndParseEjabberdStatus :
    EjabberdFetchOutcome → FetchResult (List EjabberdConnectedUserInfo)
  | .reqErr => .err
  | .doErr => .err
  | .readErr => .fatalExit
  | .body b => .ok (jsonUnmarshalSessions b).1

/-! ## The scrape operation and the collector adapter -/

/-- How one call to `Exporter.scrape` ends: a nil error, a returned error,
process termination via `log.Fatal`, or a panic. -/
inductive ScrapeResult where
  | ok
  | err
  | fatalExit
  | panicked
deriving DecidableEq, Repr

/-- Source: `Exporter.scrape` (part_000 lines 181-214), as a function of the
prior metric state and of the two fetch environments of this cycle.
If the monitor fetch returns an error, or the XML decode fails, the
availability gauge is set to 0, the per-check vector is reset and the error
is returned; otherwise availability is set to 1 and one per-check entry is
set per decoded service, keyed by (name, serviceTypes type, monitored) with
the status as value. Then the messaging fetch runs; on error it is returned
with the session gauges untouched; on success every session's uptime entry
is set (with no reset of the vector) and the count gauge is set to the
number of sessions. -/
def scrape (st : ExporterState) (mon : FetchOutcome)
    (msg : EjabberdFetchOutcome) : ExporterState × ScrapeResult :=
  match FetchMonitStatus mon with
  | .panicked => (st, .panicked)
  | .fatalExit => (st, .fatalExit)
  | .err => ({ st with up := 0, checkStatus := [] }, .err)
  | .ok data =>
    match ParseMonitStatus data with
    | none => ({ st with up := 0, checkStatus := [] }, .err)
    | some parsedData =>
      let st1 := { st with
        up := 1,
        checkStatus := parsedData.MonitServices.foldl
          (fun m service =>
            gaugeSet (service.Name, serviceTypes service.Type',
                      service.Monitored) service.Status m)
          st.checkStatus }
      match FetchAndParseEjabberdStatus msg with
      | .panicked => (st1, .panicked)
      | .fatalExit => (st1, .fatalExit)
      | .err => (st1, .err)
      | .ok jabberData =>
        ({ st1 with
            connectedUsersUptime := jabberData.foldl
              (fun m user => gaugeSet user.Jid user.Uptime m)
              st1.connectedUsersUptime,
            connectedUsersCount := jabberData.length }, .ok)

/-- Source: `Exporter.Collect` (part_000 lines 218-228): under the
exporter's lock, reset the per-check vector, run one scrape, and emit the
resulting gauge state. The state this returns is the snapshot the exposition
serializes. -/
def Collect (st : ExporterState) (mon : FetchOutcome)
    (msg : EjabberdFetchOutcome) : ExporterState :=
  (scrape { st with checkStatus := [] } mon msg).1

/-- The label tuple under which `scrape` publishes a service
(part_000 line 201). -/
def checkLabelKey (s : monitService) : CheckLabels :=
  (s.Name, serviceTypes s.Type', s.Monitored)

/-! ## Concurrency model of `Collect`

`Exporter.Collect` (part_000 lines 218-228) runs, per incoming request
goroutine: `e.mutex.Lock()`; `e.checkStatus.Reset()`; `e.scrape()`; the four
gauge `Collect` emissions; then the deferred `e.mutex.Unlock()`. Two
goroutines sharing the one exporter are modelled as an interleaving
transition system; the lock can be acquired only when free, as `sync.Mutex`
guarantees. -/

/-- Program counter of one request goroutine through `Exporter.Collect`. -/
inductive CollectPC where
  | idle
  | resetting
  | scraping
  | emitting
  | done
deriving DecidableEq, Repr

/-- Global state of two concurrent `Collect` invocations: who holds
`e.mutex`, where each goroutine is, and whether it has executed its own
scrape. -/
structure CollectSys where
  lockHolder : Option Bool
  pc : Bool → CollectPC
  scrapedBy : Bool → Bool

/-- Both goroutines about to call `Collect`, lock free. -/
def collectInit : CollectSys :=
  { lockHolder := none, pc := fun _ => .idle, scrapedBy := fun _ => false }

/-- One interleaving step of the two goroutines through
`Exporter.Collect`. -/
inductive CollectStep : CollectSys → CollectSys → Prop where
  | lock (s : CollectSys) (t : Bool) :
      s.pc t = .idle → s.lockHolder = none →
      CollectStep s { s with lockHolder := some t,
                             pc := Function.update s.pc t .resetting }
  | reset (s : CollectSys) (t : Bool) :
      s.pc t = .resetting →
      CollectStep s { s with pc := Function.update s.pc t .scraping }
  | scrapeRun (s : CollectSys) (t : Bool) :
      s.pc t = .scraping →
      CollectStep s { s with pc := Function.update s.pc t .emitting,
                             scrapedBy := Function.update s.scrapedBy t true }
  | emitAndUnlock (s : CollectSys) (t : Bool) :
      s.pc t = .emitting →
      CollectStep s { s with lockHolder := none,
                             pc := Function.update s.pc t .done }

/-- States reachable from `collectInit`. -/
inductive CollectReach : CollectSys → Prop where
  | init : CollectReach collectInit
  | step {s s' : CollectSys} : CollectReach s → CollectStep s s' →
      CollectReach s'

/-- Goroutine `t` is inside the scrape-and-update critical section: it has
passed `e.mutex.Lock()` and not yet reached the deferred unlock. -/
def inCritical (s : CollectSys) (t : Bool) : Prop :=
  s.pc t = .resetting ∨ s.pc t = .scraping ∨ s.pc t = .emitting

/-- The safety property of the collector adapter: the critical section is
exclusive, and a goroutine that finished its `Collect` executed its own
scrape (no sharing of another goroutine's result). -/
def CollectSafe (s : CollectSys) : Prop :=
  (∀ t₁ t₂ : Bool, inCritical s t₁ → inCritical s t₂ → t₁ = t₂) ∧
  (∀ t : Bool, s.pc t = .done → s.scrapedBy t = true)

/-! ## Concrete inputs used to exercise the definitions -/

/-- The minimal monitor document of the specification's round-trip
property. -/
def minimalDoc : String :=
  "<services><service type=\"2\"><name>check1</name><status>0</status><monitor>1</monitor></service></services>"

/-- A well-formed monitor document whose two service elements carry the same
(name, type, monitored) label tuple. -/
def dupDoc : String :=
  "<services><service type=\"2\"><name>a</name><status>0</status><monitor>1</monitor></service><service type=\"2\"><name>a</name><status>0</status><monitor>1</monitor></service></services>"

/-- A monitor document whose single service has the unmapped type code
99. -/
def doc99 : String :=
  "<services><service type=\"99\"><name>odd</name><status>3</status><monitor>1</monitor></service></services>"

/-- A connected session used as concrete input. -/
def sessionA : EjabberdConnectedUserInfo :=
  { Jid := "a@b", Connection := "c2s", Ip := "127.0.0.1", Port := 5222,
    Priority := 0, Node := "node1", Uptime := 5 }

/-- The decoded form of `minimalDoc`. -/
def minimalParsed : monitXML :=
  { MonitServices :=
      [{ Type' := 2, Name := "check1", Status := 0, Monitored := "1" }] }

/-- The decoded form of the single service of `doc99`. -/
def service99 : monitService :=
  { Type' := 99, Name := "odd", Status := 3, Monitored := "1" }

/-- The system state in which the goroutine `false` has just acquired the
exporter mutex. -/
def collectAfterLock : CollectSys :=
  { lockHolder := some false,
    pc := Function.update collectInit.pc false CollectPC.resetting,
    scrapedBy := collectInit.scrapedBy }

/-! ## Gauge-map lemmas -/

section GaugeLemmas

variable {κ α : Type} [DecidableEq κ]

/-- Reading a gauge vector after a `Set`: the written key returns the new
value, any other key is untouched. -/
theorem gaugeGet_gaugeSet (k k' : κ) (v : Int) (m : List (κ × Int)) :
    gaugeGet k (gaugeSet k' v m) =
      if k = k' then some v else gaugeGet k m := by
  unfold gaugeGet gaugeSet
  by_cases hany : m.any (fun p => p.1 = k') = true
  · rw [if_pos hany]
    rw [List.find?_map]
    by_cases hk : k = k'
    · subst hk
      rw [if_pos rfl]
      have hpred : ((fun p : κ × Int => decide (p.1 = k)) ∘
          (fun p => if p.1 = k then (k, v) else p)) =
          fun p : κ × Int => decide (p.1 = k) := by
        funext q
        by_cases hq : q.1 = k <;> simp [hq]
      rw [hpred]
      rcases List.any_eq_true.mp hany with ⟨q, hqm, hq⟩
      have hne : m.find? (fun p => decide (p.1 = k)) ≠ none := by
        intro hnone
        rw [List.find?_eq_none] at hnone
        exact hnone q hqm hq
      rcases Option.ne_none_iff_exists'.mp hne with ⟨q₀, hq₀⟩
      have hq₀p := List.find?_some hq₀
      have hq₀k : q₀.1 = k := by simpa using hq₀p
      rw [hq₀]
      simp [hq₀k]
    · rw [if_neg hk]
      have hpred : ((fun p : κ × Int => decide (p.1 = k)) ∘
          (fun p => if p.1 = k' then (k', v) else p)) =
          fun p : κ × Int => decide (p.1 = k) := by
        funext q
        by_cases hq : q.1 = k' <;> simp [hq, hk, Ne.symm hk]
      rw [hpred]
      cases hfind : m.find? (fun p => decide (p.1 = k)) with
      | none => simp
      | some q₀ =>
        have hq₀p := List.find?_some hfind
        have hq₀k : q₀.1 = k := by simpa using hq₀p
        have : ¬ q₀.1 = k' := fun h => hk (hq₀k ▸ h)
        simp [this]
  · rw [if_neg hany]
    rw [List.find?_append]
    have hnone : m.find? (fun p => decide (p.1 = k')) = none := by
      rw [List.find?_eq_none]
      intro x hx hpx
      exact hany (List.any_eq_true.mpr ⟨x, hx, hpx⟩)
    by_cases hk : k = k'
    · subst hk
      rw [if_pos rfl, hnone]
      simp [List.find?]
    · rw [if_neg hk]
      have hsingle : ([((k', v) : κ × Int)].find?
          (fun p => decide (p.1 = k))) = none := by
        simp [List.find?, Ne.symm hk]
      rw [hsingle]
      cases m.find? (fun p => decide (p.1 = k)) <;> simp

variable (key : α → κ) (val : α → Int)

/-- Setting a key absent from the vector appends the entry. -/
theorem gaugeSet_absent (k : κ) (v : Int) (m : List (κ × Int))
    (h : ∀ p ∈ m, p.1 ≠ k) :
    gaugeSet k v m = m ++ [(k, v)] := by
  unfold gaugeSet
  rw [if_neg]
  intro hany
  rcases List.any_eq_true.mp hany with ⟨p, hp, hpk⟩
  exact h p hp (by simpa using hpk)

/-- Writing a batch of entries with pairwise-distinct keys, all absent from
the vector, appends the batch in order. -/
theorem foldl_gaugeSet_disjoint (l : List α) :
    ∀ m : List (κ × Int), (∀ a ∈ l, ∀ p ∈ m, p.1 ≠ key a) →
      (l.map key).Nodup →
      l.foldl (fun acc a => gaugeSet (key a) (val a) acc) m =
        m ++ l.map (fun a => (key a, val a)) := by
  induction l with
  | nil => intro m _ _; simp
  | cons a l ih =>
    intro m hdisj hnodup
    have hmapnodup : (∀ x ∈ l, ¬ key x = key a) ∧ (l.map key).Nodup := by
      simpa using hnodup
    simp only [List.foldl_cons]
    rw [gaugeSet_absent (key a) (val a) m
      (fun p hp => hdisj a (List.mem_cons_self a l) p hp)]
    rw [ih (m ++ [(key a, val a)]) ?_ hmapnodup.2]
    · simp
    · intro b hb p hp
      rcases List.mem_append.mp hp with hpm | hpa
      · exact hdisj b (List.mem_cons_of_mem a hb) p hpm
      · have hpe : p = (key a, val a) := by simpa using hpa
        subst hpe
        intro hEq
        exact hmapnodup.1 b hb hEq.symm

/-- Writing a batch of entries none of whose keys is `k` leaves the value
stored at `k` unchanged. -/
theorem gaugeGet_foldl_gaugeSet_ne (l : List α) (k : κ) :
    ∀ m : List (κ × Int), (∀ a ∈ l, key a ≠ k) →
      gaugeGet k (l.foldl (fun acc a => gaugeSet (key a) (val a) acc) m) =
        gaugeGet k m := by
  induction l with
  | nil => intro m _; rfl
  | cons a l ih =>
    intro m h
    simp only [List.foldl_cons]
    rw [ih _ (fun b hb => h b (List.mem_cons_of_mem a hb))]
    rw [gaugeGet_gaugeSet]
    exact if_neg (fun hEq => h a (List.mem_cons_self a l) hEq.symm)

end GaugeLemmas

/-- An unmapped service type code (outside 0..8) yields the Go map's zero
value, the empty string. -/
theorem serviceTypes_default (t : Int) (h : t < 0 ∨ 8 < t) :
    serviceTypes t = "" := by
  unfold serviceTypes
  rcases h with h | h <;> (repeat rw [if_neg (by omega)])

/-! ## Claims -/

/-- C1: whenever the monitor fetch returns an error or the monitor XML
decode fails, the scrape sets the availability gauge to 0, resets the
per-check gauge vector, returns the error, and the outcome is independent
of the messaging environment (the messaging fetch is never attempted), the
session gauges keeping their prior values. -/
theorem C1_monitor_failure_short_circuits (st : ExporterState)
    (mon : FetchOutcome) (msg msg' : EjabberdFetchOutcome)
    (h : FetchMonitStatus mon = .err ∨
         ∃ data, FetchMonitStatus mon = .ok data ∧
           ParseMonitStatus data = none) :
    scrape st mon msg = ({ st with up := 0, checkStatus := [] }, .err) ∧
    scrape st mon msg = scrape st mon msg' := by
  rcases h with h | ⟨data, hok, hparse⟩
  · cases mon <;> simp_all [scrape, FetchMonitStatus]
  · cases mon <;> simp_all [scrape, FetchMonitStatus]

/-- Witness for C1: a concrete round-trip failure of the monitor fetch,
with two different messaging environments. -/
theorem C1_witness :
    scrape initialExporterState .doErr (.body .null) =
      ({ initialExporterState with up := 0, checkStatus := [] }, .err) ∧
    scrape initialExporterState .doErr (.body .null) =
      scrape initialExporterState .doErr .reqErr :=
  C1_monitor_failure_short_circuits initialExporterState .doErr (.body .null)
    .reqErr (Or.inl rfl)

/-- C8: decoding the minimal monitor document yields exactly one service
check with type code 2 (whose type-name string is "file"), name "check1",
status 0 and monitored "1". -/
theorem C8_minimal_roundtrip :
    ParseMonitStatus minimalDoc =
      some { MonitServices :=
        [{ Type' := 2, Name := "check1", Status := 0, Monitored := "1" }] } ∧
    serviceTypes 2 = "file" := by
  constructor
  · decide
  · decide

/-- C4 (failing input): when reading a response body fails, both fetchers
call `log.Fatal`, which terminates the process instead of returning the
error to the scrape (the `return nil, err` after each `log.Fatal` is
unreachable), so a scrape hitting a monitor body-read failure ends in
process termination, not in an error return. -/
theorem C4_body_read_error_is_process_fatal :
    FetchMonitStatus .readErr = .fatalExit ∧
    FetchAndParseEjabberdStatus .readErr = .fatalExit ∧
    (scrape initialExporterState .readErr (.body .null)).2 =
      .fatalExit ∧
    (scrape initialExporterState .readErr (.body .null)).2 ≠ .err := by
  refine ⟨rfl, rfl, rfl, ?_⟩
  decide

/-- C7 (failing input): when monitor request construction fails,
`FetchMonitStatus` logs the error but does not return it; it goes on to
call `SetBasicAuth` on the nil request and panics, and a scrape hitting
this outcome ends in a panic, not an error return. -/
theorem C7_request_construction_error_panics :
    FetchMonitStatus .reqErr = .panicked ∧
    FetchMonitStatus .reqErr ≠ .err ∧
    (scrape initialExporterState .reqErr (.body .null)).2 = .panicked := by
  refine ⟨rfl, ?_, rfl⟩
  decide

/-- C5 (counterexample): a malformed messaging body makes `json.Unmarshal`
report an error, yet `FetchAndParseEjabberdStatus` returns the partially
decoded list with a nil error — the decode error is not returned to the
caller, contradicting the claim. -/
theorem C5_counterexample :
    (jsonUnmarshalSessions (.malformed [sessionA])).2 = true ∧
    FetchAndParseEjabberdStatus (.body (.malformed [sessionA])) =
      .ok [sessionA] ∧
    FetchAndParseEjabberdStatus (.body (.malformed [sessionA])) ≠
      .err := by
  refine ⟨rfl, rfl, ?_⟩
  decide

/-- C5 (amended): an empty or null messaging body yields an empty session
list with a nil error, and malformed JSON also yields a nil error: the
decode error is silently discarded and the partially decoded list is
returned. -/
theorem C5_messaging_decode_leniency
    (p : List EjabberdConnectedUserInfo) :
    FetchAndParseEjabberdStatus (.body .empty) = .ok [] ∧
    FetchAndParseEjabberdStatus (.body .null) = .ok [] ∧
    FetchAndParseEjabberdStatus (.body (.malformed p)) = .ok p := by
  exact ⟨rfl, rfl, rfl⟩

/-- Witness for the amended C5 at a concrete partially decoded list. -/
theorem C5_witness :
    FetchAndParseEjabberdStatus (.body .empty) = .ok [] ∧
    FetchAndParseEjabberdStatus (.body .null) = .ok [] ∧
    FetchAndParseEjabberdStatus
        (.body (.malformed [sessionA, sessionA])) =
      .ok [sessionA, sessionA] :=
  C5_messaging_decode_leniency [sessionA, sessionA]

set_option maxRecDepth 16384 in
/-- C2 (counterexample): a well-formed document with two service elements
carrying the same label tuple decodes to two services, but one `Collect`
leaves a single per-check gauge entry, not two — the entry count is the
number of distinct label tuples, not the number of service elements. -/
theorem C2_counterexample :
    (ParseMonitStatus dupDoc).map (fun x => x.MonitServices.length) =
      some 2 ∧
    (Collect initialExporterState (.body dupDoc)
        (.body .null)).checkStatus.length = 1 := by
  constructor
  · decide
  · decide

/-- C2 (amended): for a successful monitor fetch and decode whose N service
elements have pairwise-distinct (name, type-name, monitored) label tuples,
one `Collect` sets availability to 1 and rebuilds the per-check vector from
scratch as exactly the N decoded entries, each keyed by its label tuple and
holding its status code. -/
theorem C2_collect_rebuilds_check_gauges (st : ExporterState)
    (data : String) (msg : EjabberdFetchOutcome) (x : monitXML)
    (hparse : ParseMonitStatus data = some x)
    (hnodup : (x.MonitServices.map checkLabelKey).Nodup) :
    (Collect st (.body data) msg).up = 1 ∧
    (Collect st (.body data) msg).checkStatus =
      x.MonitServices.map (fun s => (checkLabelKey s, s.Status)) := by
  have hfold := foldl_gaugeSet_disjoint checkLabelKey
    (fun s => s.Status) x.MonitServices []
    (fun a _ p hp => absurd hp (List.not_mem_nil p)) hnodup
  simp only [List.nil_append] at hfold
  unfold Collect scrape
  simp only [FetchMonitStatus, hparse]
  cases hm : FetchAndParseEjabberdStatus msg <;>
    simp [hm, checkLabelKey] at hfold ⊢ <;>
    exact hfold

/-- Witness for the amended C2 on the minimal document. -/
theorem C2_witness :
    (Collect initialExporterState (.body minimalDoc) (.body .null)).up
      = 1 ∧
    (Collect initialExporterState (.body minimalDoc)
        (.body .null)).checkStatus = [(("check1", "file", "1"), 0)] := by
  have h := C2_collect_rebuilds_check_gauges initialExporterState
    minimalDoc (.body .null) minimalParsed (by decide) (by decide)
  refine ⟨h.1, ?_⟩
  rw [h.2]
  decide

set_option maxRecDepth 16384 in
/-- C3 (counterexample): a session present in one scrape and absent from
the next keeps its per-session uptime entry in the snapshot after the
second scrape — the claim says the entry is gone. -/
theorem C3_counterexample :
    gaugeGet "a@b"
      (Collect
        (Collect initialExporterState (.body minimalDoc)
          (.body (.array [sessionA])))
        (.body minimalDoc) (.body (.array []))).connectedUsersUptime =
      some 5 := by
  decide

/-- C3 (amended): the per-session uptime vector is never cleared: on any
scrape whose messaging fetch succeeds, a session identity absent from the
new session list keeps exactly the value it had before the scrape, so
stale identities survive into the next exposition. -/
theorem C3_stale_sessions_survive (st : ExporterState)
    (mon : FetchOutcome) (msg : EjabberdFetchOutcome)
    (jabberData : List EjabberdConnectedUserInfo) (jid : String)
    (hmsg : FetchAndParseEjabberdStatus msg = .ok jabberData)
    (habsent : ∀ u ∈ jabberData, u.Jid ≠ jid) :
    gaugeGet jid (Collect st mon msg).connectedUsersUptime =
      gaugeGet jid st.connectedUsersUptime := by
  have hfold := gaugeGet_foldl_gaugeSet_ne
    (fun u : EjabberdConnectedUserInfo => u.Jid)
    (fun u : EjabberdConnectedUserInfo => u.Uptime)
    jabberData jid st.connectedUsersUptime habsent
  unfold Collect scrape
  cases mon with
  | reqErr => rfl
  | doErr => rfl
  | readErr => rfl
  | body data =>
    cases hp : ParseMonitStatus data with
    | none => simp [FetchMonitStatus, hp]
    | some x =>
      simp only [FetchMonitStatus, hp, hmsg]
      exact hfold

/-- Witness for the amended C3: the concrete two-scrape run of the
counterexample, seen through the amended statement. -/
theorem C3_witness :
    gaugeGet "a@b"
      (Collect
        (Collect initialExporterState (.body minimalDoc)
          (.body (.array [sessionA])))
        (.body minimalDoc)
        (.body (.array []))).connectedUsersUptime =
      gaugeGet "a@b"
        (Collect initialExporterState (.body minimalDoc)
          (.body (.array [sessionA]))).connectedUsersUptime :=
  C3_stale_sessions_survive
    (Collect initialExporterState (.body minimalDoc)
      (.body (.array [sessionA])))
    (.body minimalDoc) (.body (.array [])) [] "a@b" rfl
    (fun u hu => absurd hu (List.not_mem_nil u))

/-- C6: when the monitor fetch and decode succeed but the messaging fetch
returns an error, `Collect` leaves availability at 1 and the per-check
vector rebuilt from the current cycle, while both session gauges keep the
prior cycle's values, and the scrape returns the error. -/
theorem C6_messaging_failure_frame (st : ExporterState) (data : String)
    (x : monitXML) (msg : EjabberdFetchOutcome)
    (hparse : ParseMonitStatus data = some x)
    (hmsg : FetchAndParseEjabberdStatus msg = .err) :
    Collect st (.body data) msg =
      { up := 1,
        checkStatus := x.MonitServices.foldl
          (fun m s => gaugeSet (checkLabelKey s) s.Status m) [],
        connectedUsersUptime := st.connectedUsersUptime,
        connectedUsersCount := st.connectedUsersCount } ∧
    (scrape { st with checkStatus := [] } (.body data) msg).2 = .err := by
  unfold Collect scrape
  simp [FetchMonitStatus, hparse, hmsg, checkLabelKey]

/-- Witness for C6: minimal document, concrete messaging round-trip
failure. -/
theorem C6_witness :
    Collect initialExporterState (.body minimalDoc) .doErr =
      { up := 1,
        checkStatus := minimalParsed.MonitServices.foldl
          (fun m s => gaugeSet (checkLabelKey s) s.Status m) [],
        connectedUsersUptime :=
          initialExporterState.connectedUsersUptime,
        connectedUsersCount :=
          initialExporterState.connectedUsersCount } ∧
    (scrape { initialExporterState with checkStatus := [] }
        (.body minimalDoc) .doErr).2 = .err :=
  C6_messaging_failure_frame initialExporterState minimalDoc
    minimalParsed .doErr (by decide) rfl

/-- C10: a decoded service whose type code is outside 0..8 is still
published: its type-name string is the Go map's zero value "", and after
one `Collect` the per-check vector holds an entry keyed
(name, "", monitored) with the status as value. -/
theorem C10_unmapped_type_published (st : ExporterState)
    (msg : EjabberdFetchOutcome) (data : String) (s : monitService)
    (hparse : ParseMonitStatus data = some { MonitServices := [s] })
    (ht : s.Type' < 0 ∨ 8 < s.Type') :
    serviceTypes s.Type' = "" ∧
    gaugeGet (s.Name, "", s.Monitored)
      (Collect st (.body data) msg).checkStatus = some s.Status := by
  have hdef := serviceTypes_default s.Type' ht
  refine ⟨hdef, ?_⟩
  unfold Collect scrape
  simp only [FetchMonitStatus, hparse]
  cases hm : FetchAndParseEjabberdStatus msg <;>
    simp [hm, hdef, gaugeGet_gaugeSet]

/-- Witness for C10 on the type-99 document. -/
theorem C10_witness :
    serviceTypes (99 : Int) = "" ∧
    gaugeGet ("odd", "", "1")
      (Collect initialExporterState (.body doc99)
        (.body .null)).checkStatus = some 3 :=
  C10_unmapped_type_published initialExporterState (.body .null) doc99
    service99 (by decide) (Or.inr (by decide))

/-- Internal inductive invariant of the two-goroutine `Collect` system:
the lock holder is the only goroutine inside the critical section, and a
goroutine at or past its scrape step has executed its own scrape. -/
theorem collect_inv (s : CollectSys) (h : CollectReach s) :
    (∀ t, inCritical s t → s.lockHolder = some t) ∧
    (∀ t, (s.pc t = .emitting ∨ s.pc t = .done) →
      s.scrapedBy t = true) := by
  induction h with
  | init =>
    constructor
    · intro t ht
      rcases ht with h1 | h1 | h1 <;> exact absurd h1 (by simp [collectInit])
    · intro t ht
      rcases ht with h1 | h1 <;> exact absurd h1 (by simp [collectInit])
  | step _ hstep ih =>
    cases hstep with
    | lock t hidle hfree =>
      constructor
      · intro t' ht'
        by_cases he : t' = t
        · subst he; rfl
        · simp only [inCritical, Function.update_noteq he] at ht'
          exact absurd (ih.1 t' ht') (by rw [hfree]; simp)
      · intro t' ht'
        by_cases he : t' = t
        · subst he
          simp only [Function.update_same] at ht'
          rcases ht' with h1 | h1 <;> exact absurd h1 (by simp)
        · simp only [Function.update_noteq he] at ht'
          exact ih.2 t' ht'
    | reset t hpc =>
      constructor
      · intro t' ht'
        by_cases he : t' = t
        · subst he
          exact ih.1 t' (Or.inl hpc)
        · simp only [inCritical, Function.update_noteq he] at ht'
          exact ih.1 t' ht'
      · intro t' ht'
        by_cases he : t' = t
        · subst he
          simp only [Function.update_same] at ht'
          rcases ht' with h1 | h1 <;> exact absurd h1 (by simp)
        · simp only [Function.update_noteq he] at ht'
          exact ih.2 t' ht'
    | scrapeRun t hpc =>
      constructor
      · intro t' ht'
        by_cases he : t' = t
        · subst he
          exact ih.1 t' (Or.inr (Or.inl hpc))
        · simp only [inCritical, Function.update_noteq he] at ht'
          exact ih.1 t' ht'
      · intro t' ht'
        by_cases he : t' = t
        · subst he
          exact Function.update_same _ _ _
        · simp only [Function.update_noteq he] at ht' ⊢
          exact ih.2 t' ht'
    | emitAndUnlock t hpc =>
      constructor
      · intro t' ht'
        by_cases he : t' = t
        · subst he
          simp only [inCritical, Function.update_same] at ht'
          rcases ht' with h1 | h1 | h1 <;> exact absurd h1 (by simp)
        · simp only [inCritical, Function.update_noteq he] at ht'
          have h1 := ih.1 t' ht'
          have h2 := ih.1 t (Or.inr (Or.inr hpc))
          rw [h1] at h2
          exact absurd (Option.some.inj h2) he
      · intro t' ht'
        by_cases he : t' = t
        · subst he
          exact ih.2 t' (Or.inl hpc)
        · simp only [Function.update_noteq he] at ht'
          exact ih.2 t' ht'

/-- C9: in every state reachable by interleaving two concurrent `Collect`
invocations, at most one goroutine is inside the scrape-and-update critical
section (the second blocks on the mutex until the first releases it), and
every goroutine that completed its `Collect` executed its own scrape, so no
exposition mixes label sets from two cycles. -/
theorem C9_collect_serialized (s : CollectSys) (h : CollectReach s) :
    CollectSafe s := by
  have inv := collect_inv s h
  constructor
  · intro t₁ t₂ h₁ h₂
    have e₁ := inv.1 t₁ h₁
    have e₂ := inv.1 t₂ h₂
    rw [e₁] at e₂
    exact Option.some.inj e₂
  · intro t ht
    exact inv.2 t (Or.inr ht)

/-- Witness for C9: the safety property holds at a concrete reachable
state, the one in which goroutine `false` has just acquired the lock. -/
theorem C9_witness :
    CollectSafe collectAfterLock :=
  C9_collect_serialized collectAfterLock
    (CollectReach.step CollectReach.init
      (CollectStep.lock collectInit false rfl rfl))

end MonitExporter
